import Mathlib

/-!
# Upload handlers of the file-storage server

A shallow embedding of `handlerUploadThumbnail` (handler_upload_thumbnail.go) and
`handlerUploadVideo` (handler_upload_video.go).

The handlers are sequences of calls to external collaborators (UUID parsing, the
authenticator, the video database, the file system, the object store, the clock and the
random source).  The answers of the collaborators are collected in a `World`; what the
handler does is collected in an `Outcome`: the calls made on the response writer, the
mutating calls made on the file system, the object store and the database, and the record
read from the database.  Diagnostic printing (`fmt.Println`) and closing the multipart
file handle are not part of the model.  Parsing the multipart body is part of it: the
temporary files `net/http` writes for file parts that do not fit in the memory limit are
mutating calls of the run in which the handler starts the parsing.

Go strings are modelled by `String`, byte slices by `List Nat`, `time.Time` by `Nat`, and
a pointer to a string (`*string`) by `Option String`.
-/

namespace Tubely

/-! ## Data model -/

/-- The type `uuid.UUID`: sixteen bytes, read as one number. Only equality is used. -/
abbrev UUID := Nat

/-- The record `database.Video` with the embedded `database.CreateVideoParams`; the fields
are the ones the two handlers read and write. -/
structure Video where
  ID : UUID
  CreatedAt : Nat
  UpdatedAt : Nat
  ThumbnailURL : Option String
  VideoURL : Option String
  Title : String
  Description : String
  UserID : UUID
deriving DecidableEq, Repr

/-- The fields of `apiConfig` that the handlers read; `db` and `s3Client` are part of the
`World`. -/
structure apiConfig where
  jwtSecret : String
  assetsRoot : String
  port : String
  s3Bucket : String
  s3Region : String
deriving DecidableEq, Repr

/-- What `r.FormFile(name)` returns on success: the declared `Content-Type` of the part and
the bytes of the file. -/
structure FormFile where
  contentType : String
  data : List Nat
deriving DecidableEq, Repr

/-- What `r.ParseMultipartForm(maxMemory)` does with the body of the request. -/
structure MultipartParse where
  /-- Does the call return an error. -/
  err : Bool
  /-- The temporary files `multipart-*` the call creates under `os.TempDir()` for the
  file parts that do not fit in `maxMemory` bytes. When the call returns an error it has
  removed them again before it returns. -/
  spooled : List String
deriving DecidableEq, Repr

/-- The parts of the `*http.Request` that the handlers look at. -/
structure Request where
  /-- The value of `r.PathValue("videoID")`. -/
  videoIDString : String
  /-- The result of `auth.GetBearerToken(r.Header)`; `none` is an error. -/
  bearer : Option String
  /-- The call `r.ParseMultipartForm(maxMemory)`, for each memory limit. -/
  parseMultipartForm : Nat → MultipartParse
  /-- The file stored under a field name in the parsed form; `none` when there is none
  (`http.ErrMissingFile`). -/
  formFile : String → Option FormFile

/-- The answers of the collaborators outside the two source files. -/
structure World where
  /-- The function `uuid.Parse`; `none` is an error. -/
  uuidParse : String → Option UUID
  /-- The function `auth.ValidateJWT token secret`; `none` is an error. -/
  validateJWT : String → String → Option UUID
  /-- The method `cfg.db.GetVideo`; `none` is an error. -/
  getVideo : UUID → Option Video
  /-- Does `cfg.db.UpdateVideo` return an error for this record. -/
  updateVideoErr : Video → Bool
  /-- Does `os.Create` return an error for this path. -/
  createErr : String → Bool
  /-- Does `io.Copy` return an error. -/
  copyErr : Bool
  /-- The result of `os.TempDir()`. -/
  tempDir : String
  /-- The random digits `os.CreateTemp` puts in the name; `none` is an error. -/
  createTempRandom : Option String
  /-- The bytes `rand.Read` fills the 32-byte buffer with. -/
  randomBytes : List Nat
  /-- Does `cfg.s3Client.PutObject` return an error for this key. -/
  putObjectErr : String → Bool
  /-- The result of `time.Now()`. -/
  now : Nat
  /-- Does the parameter section of a media type (from the first `;` on) fail to parse in
  `mime.ParseMediaType`. -/
  mediaParamsErr : String → Bool

/-- A call on the `http.ResponseWriter` made through one of the two helpers of the
repository, `respondWithError(w, code, msg, err)` and `respondWithJSON(w, code, payload)`.
Both helpers live outside the two source files; a call is recorded with its arguments. -/
inductive Response where
  | error (code : Nat) (msg : String)
  | json (code : Nat) (payload : Video)
deriving DecidableEq, Repr

/-- The status code a recorded call asks for. -/
def Response.code : Response → Nat
  | .error c _ => c
  | .json c _ => c

/-- The status line the client receives: `net/http` sends the status of the first
`WriteHeader` and ignores later ones, and sends `200 OK` when the handler returns without
writing anything. -/
def statusSent : List Response → Nat
  | [] => 200
  | r :: _ => r.code

/-- A mutating call made during a run of a handler, in the order of execution.
`createFile` and `createTemp` are recorded when `os.Create` and `os.CreateTemp` succeeded;
the other calls are recorded when they are made, whatever they return. -/
inductive Effect where
  /-- A temporary file created by `net/http` while it parses the multipart form. -/
  | spoolTemp (name : String)
  /-- The call `os.Create(path)`. -/
  | createFile (path : String)
  /-- The call `io.Copy(newAssetFile, file)`. -/
  | copyToFile (path : String) (data : List Nat)
  /-- The call `os.CreateTemp("", pattern)`, with the name of the file created. -/
  | createTemp (name : String)
  /-- The call `io.Copy(tempFile, file)`. -/
  | copyToTemp (name : String) (data : List Nat)
  /-- The call `tempFile.Seek(0, io.SeekStart)`. -/
  | seekStart (name : String)
  /-- The call `cfg.s3Client.PutObject` with bucket, key, body (the temporary file) and
  content type. -/
  | putObject (bucket key body contentType : String)
  /-- The deferred `tempFile.Close()`. -/
  | closeTemp (name : String)
  /-- The call `os.Remove(path)`: the deferred one of the video handler, or the removal of
  a spooled file by a failing `r.ParseMultipartForm`. -/
  | remove (path : String)
  /-- The call `cfg.db.UpdateVideo(video)`. -/
  | updateVideo (video : Video)
deriving DecidableEq, Repr

/-- What one run of a handler did. -/
structure Outcome where
  /-- The calls on the response writer, in order. -/
  writes : List Response
  /-- The mutating calls, in order. -/
  effects : List Effect
  /-- The record `cfg.db.GetVideo` returned, when the handler called it with success. -/
  fetched : Option Video
deriving DecidableEq, Repr

/-! ## Standard library functions used by the handlers -/

/-- Split a list of characters at every occurrence of `sep`. -/
def splitOnChar (sep : Char) : List Char → List (List Char)
  | [] => [[]]
  | c :: cs =>
    match splitOnChar sep cs with
    | [] => [[]]
    | p :: ps => if c = sep then [] :: p :: ps else (c :: p) :: ps

/-- The call `strings.Split(s, "/")`. -/
def stringsSplit (s : String) : List String :=
  (splitOnChar '/' s.data).map String.mk

/-- The call `strings.Join(elems, "/")`. -/
def stringsJoin : List String → String
  | [] => ""
  | [a] => a
  | a :: b :: rest => a ++ "/" ++ stringsJoin (b :: rest)

/-- One step of `filepath.Clean` on the stack of kept path elements (top first). -/
def cleanStep (rooted : Bool) (stack : List String) (comp : String) : List String :=
  if comp = ".." then
    match stack with
    | [] => if rooted then [] else [".."]
    | top :: rest => if top = ".." then ".." :: top :: rest else rest
  else comp :: stack

/-- The function `filepath.Clean` on a Unix path: empty and `.` elements are dropped, an
inner `..` removes the element before it, `..` at the start of a rooted path is dropped,
and the empty result is `.`. -/
def filepathClean (path : String) : String :=
  let rooted := path.data.head? = some '/'
  let comps := (stringsSplit path).filter (fun c => c ≠ "" ∧ c ≠ ".")
  let body := stringsJoin (comps.foldl (cleanStep rooted) []).reverse
  if rooted then "/" ++ body else if body = "" then "." else body

/-- The function `filepath.Join`: empty leading elements are ignored, the others are joined
with a slash and the result is cleaned. -/
def filepathJoin : List String → String
  | [] => ""
  | e :: rest => if e = "" then filepathJoin rest else filepathClean (stringsJoin (e :: rest))

/-- The name `os.CreateTemp(dir, pattern)` gives the new file when the pattern holds no
`*`: the directory (`os.TempDir()` when `dir` is empty), a separator unless the directory
ends in one, the pattern, and the random digits. -/
def createTempName (tempDir dir pattern random : String) : String :=
  let d := if dir = "" then tempDir else dir
  let base := if d.data.getLast? = some '/' then d ++ pattern else d ++ "/" ++ pattern
  base ++ random

/-- The alphabet of `base64.URLEncoding`. -/
def encodeURL : List Char :=
  "ABCDEFGHIJKLMNOPQRSTUVWXYZabcdefghijklmnopqrstuvwxyz0123456789-_".data

/-- The character for a six-bit value. -/
def b64 (k : Nat) : Char := encodeURL.getD (k % 64) 'A'

/-- The function `base64.RawURLEncoding.EncodeToString`: three bytes give four characters,
a rest of two bytes gives three and a rest of one byte gives two; there is no padding. -/
def base64RawURLEncode : List Nat → List Char
  | a :: b :: c :: rest =>
    let val := a * 65536 + b * 256 + c
    b64 (val / 262144) :: b64 (val / 4096) :: b64 (val / 64) :: b64 val ::
      base64RawURLEncode rest
  | [a, b] =>
    let val := a * 65536 + b * 256
    [b64 (val / 262144), b64 (val / 4096), b64 (val / 64)]
  | [a] =>
    let val := a * 65536
    [b64 (val / 262144), b64 (val / 4096)]
  | [] => []

/-- The URL-safe characters: `A` to `Z`, `a` to `z`, `0` to `9`, `-` and `_`. -/
def urlSafe (c : Char) : Bool :=
  (decide (65 ≤ c.toNat) && decide (c.toNat ≤ 90)) ||
  (decide (97 ≤ c.toNat) && decide (c.toNat ≤ 122)) ||
  (decide (48 ≤ c.toNat) && decide (c.toNat ≤ 57)) || c == '-' || c == '_'

/-- The special characters of RFC 1521 and RFC 2045, which are no token characters. -/
def isTSpecial (c : Char) : Bool :=
  c ∈ ['(', ')', '<', '>', '@', ',', ';', ':', Char.ofNat 92, Char.ofNat 34, '/', '[', ']',
    '?', '=']

/-- The token characters of a media type. -/
def isTokenChar (c : Char) : Bool :=
  decide (0x20 < c.toNat) && decide (c.toNat < 0x7f) && !isTSpecial c

/-- The function `consumeToken` of package `mime`: the longest leading token and the
rest. -/
def consumeToken (v : List Char) : List Char × List Char :=
  (v.takeWhile isTokenChar, v.dropWhile isTokenChar)

/-- The function `checkMediaTypeDisposition` of package `mime`; `true` when it returns no
error: a token, or a token, a slash and a token. -/
def checkMediaTypeDisposition (s : List Char) : Bool :=
  match consumeToken s with
  | ([], _) => false
  | (_ :: _, []) => true
  | (_ :: _, c :: rest) =>
    if c ≠ '/' then false
    else
      match consumeToken rest with
      | ([], _) => false
      | (_ :: _, []) => true
      | (_ :: _, _ :: _) => false

/-- The predicate `unicode.IsSpace`. -/
def unicodeIsSpace (c : Char) : Bool :=
  let n := c.toNat
  (decide (9 ≤ n) && decide (n ≤ 13)) || n == 0x20 || n == 0x85 || n == 0xA0 || n == 0x1680
    || (decide (0x2000 ≤ n) && decide (n ≤ 0x200a)) || n == 0x2028 || n == 0x2029
    || n == 0x202f || n == 0x205f || n == 0x3000

/-- The function `strings.TrimSpace`. -/
def trimSpace (s : List Char) : List Char :=
  ((s.dropWhile unicodeIsSpace).reverse.dropWhile unicodeIsSpace).reverse

/-- Lower case of one rune as far as `mime.ParseMediaType` can observe it: the ASCII
letters, and the two runes outside ASCII whose lower case is an ASCII letter (U+0130 and
U+212A). Every other rune outside ASCII stays outside ASCII, where it is no token
character. -/
def runeToLower (c : Char) : Char :=
  if 65 ≤ c.toNat ∧ c.toNat ≤ 90 then Char.ofNat (c.toNat + 32)
  else if c.toNat = 0x130 then 'i'
  else if c.toNat = 0x212A then 'k'
  else c

/-- The first two statements of `mime.ParseMediaType`: the header up to the first `;`, in
lower case and trimmed (`strings.Cut`, `strings.ToLower`, `strings.TrimSpace`). -/
def mediaTypeBase (v : String) : List Char :=
  trimSpace ((v.data.takeWhile (fun c => c ≠ ';')).map runeToLower)

/-- The media type returned by `mime.ParseMediaType`, `none` when it returns an error. The
header is cut at the first `;`, the part before it is put in lower case, trimmed and
checked; the parameter section after it is parsed by the library, and whether that fails is
an answer of the world. -/
def mimeParseMediaType (paramsErr : String → Bool) (v : String) : Option String :=
  let rest := v.data.dropWhile (fun c => c ≠ ';')
  let mediatype := mediaTypeBase v
  if !checkMediaTypeDisposition mediatype then none
  else if rest = [] then some (String.mk mediatype)
  else if paramsErr (String.mk rest) then none
  else some (String.mk mediatype)

/-! ## The handlers -/

/-- A run that ends in one call of `respondWithError` before the record was fetched,
without any mutating call. -/
def reject (code : Nat) (msg : String) : Outcome :=
  { writes := [Response.error code msg], effects := [], fetched := none }

/-- The mutating calls of a successful `r.ParseMultipartForm`: the spooled files. -/
def spoolEffects (form : MultipartParse) : List Effect :=
  form.spooled.map Effect.spoolTemp

/-- The mutating calls of a failing `r.ParseMultipartForm`: the files spooled so far are
created and removed again. -/
def spoolFailedEffects (form : MultipartParse) : List Effect :=
  form.spooled.map Effect.spoolTemp ++ form.spooled.map Effect.remove

/-- The constant `defaultMaxMemory` of `net/http` (32 MB), the limit `r.FormFile` parses
the form with when the handler has not parsed it before. -/
def defaultMaxMemory : Nat := 32 <<< 20

/-- The method `handlerUploadThumbnail` of handler_upload_thumbnail.go. The form is parsed
with `maxMemory = 10 << 20` before the content type is looked at and before the record is
fetched, so the spooled files are part of every later outcome. After a failed `io.Copy`
and after a failed `UpdateVideo` the source calls `respondWithError` and does not return,
so the run goes on to the next statement. -/
def handlerUploadThumbnail (cfg : apiConfig) (w : World) (r : Request) : Outcome :=
  match w.uuidParse r.videoIDString with
  | none => reject 400 "Invalid ID"
  | some videoID =>
  match r.bearer with
  | none => reject 401 "Couldn't find JWT"
  | some token =>
  match w.validateJWT token cfg.jwtSecret with
  | none => reject 401 "Couldn't validate JWT"
  | some userID =>
  let maxMemory := 10 <<< 20
  let form := r.parseMultipartForm maxMemory
  if form.err then
    { writes := [Response.error 500 "Couldn't parse data"],
      effects := spoolFailedEffects form, fetched := none }
  else
  let spool := spoolEffects form
  match r.formFile "thumbnail" with
  | none =>
    { writes := [Response.error 400 "Unable to parse from file"], effects := spool,
      fetched := none }
  | some file =>
  let contentType := file.contentType
  if contentType = "" then
    { writes := [Response.error 400 "Couldn't find valid Content-Type header"],
      effects := spool, fetched := none }
  else
  match stringsSplit contentType with
  | [mainType, subType] =>
    if mainType ≠ "image" then
      { writes := [Response.error 400
          "Content Type doesn't match image data type - thumbnail has to be an image"],
        effects := spool, fetched := none }
    else
    match w.getVideo videoID with
    | none =>
      { writes := [Response.error 404 "Couldn't find video with such id"],
        effects := spool, fetched := none }
    | some metaData =>
    if metaData.UserID ≠ userID then
      { writes := [Response.error 401 "access permitted"], effects := spool,
        fetched := some metaData }
    else
    let assetName := r.videoIDString ++ "." ++ subType
    let assetLocalURL := filepathJoin [cfg.assetsRoot, assetName]
    if w.createErr assetLocalURL then
      { writes := [Response.error 500 "Couldn't create dest path to new asset file"],
        effects := spool, fetched := some metaData }
    else
    let copyWrites :=
      if w.copyErr then
        [Response.error 500
          "Couldn't write content to new asset file at assets/<new_asset>"]
      else []
    let assetURL := "http://localhost:" ++ cfg.port ++ "/assets/" ++ assetName
    let updatedVideo : Video :=
      { ID := metaData.ID
        CreatedAt := metaData.CreatedAt
        UpdatedAt := w.now
        ThumbnailURL := some assetURL
        VideoURL := metaData.VideoURL
        Title := metaData.Title
        Description := metaData.Description
        UserID := metaData.UserID }
    let updateWrites :=
      if w.updateVideoErr updatedVideo then
        [Response.error 500 "Couldn't update video, although videoID had been found"]
      else []
    { writes := copyWrites ++ updateWrites ++ [Response.json 200 updatedVideo]
      effects := spool ++ [Effect.createFile assetLocalURL,
        Effect.copyToFile assetLocalURL file.data, Effect.updateVideo updatedVideo]
      fetched := some metaData }
  | _ =>
    { writes := [Response.error 400 "malformed Content-Type header"], effects := spool,
      fetched := none }

/-- The method `handlerUploadVideo` of handler_upload_video.go. The form is parsed inside
`r.FormFile("video")`, after the owner check, with `defaultMaxMemory`; `r.FormFile` fails
when the parsing fails or when the form holds no file under the name. The results of
`io.Copy(tempFile, file)`, of `tempFile.Seek` and of `cfg.db.UpdateVideo` are discarded by
the source, and no response is written after `UpdateVideo`. The two deferred calls made
after the temporary file exists run on every later exit, `tempFile.Close()` first and
`os.Remove(tempFilePath)` second. -/
def handlerUploadVideo (cfg : apiConfig) (w : World) (r : Request) : Outcome :=
  match w.uuidParse r.videoIDString with
  | none => reject 400 "Invalid ID"
  | some videoID =>
  match r.bearer with
  | none => reject 401 "Couldn't find JWT"
  | some token =>
  match w.validateJWT token cfg.jwtSecret with
  | none => reject 401 "Couldn't validate JWT"
  | some userID =>
  match w.getVideo videoID with
  | none => reject 404 "Couldn't find video with such id"
  | some video =>
  if video.UserID ≠ userID then
    { writes := [Response.error 401 "access permitted"], effects := [],
      fetched := some video }
  else
  let form := r.parseMultipartForm defaultMaxMemory
  if form.err then
    { writes := [Response.error 400 "Unable to parse from video file"],
      effects := spoolFailedEffects form, fetched := some video }
  else
  let spool := spoolEffects form
  match r.formFile "video" with
  | none =>
    { writes := [Response.error 400 "Unable to parse from video file"], effects := spool,
      fetched := some video }
  | some file =>
  let contentType := file.contentType
  if contentType = "" then
    { writes := [Response.error 400 "Couldn't find valid Content-Type header"],
      effects := spool, fetched := some video }
  else
  match mimeParseMediaType w.mediaParamsErr contentType with
  | none =>
    { writes := [Response.error 500 "Couldn't parse mime type"], effects := spool,
      fetched := some video }
  | some mediaType =>
  match stringsSplit mediaType with
  | [mainType, subType] =>
    if mainType ≠ "video" ∧ subType ≠ "mp4" then
      { writes := [Response.error 400
          "Content Type doesn't match video data type - video upload has to be an video/mp4"],
        effects := spool, fetched := some video }
    else
    match w.createTempRandom with
    | none =>
      { writes := [Response.error 500
          "Couldn't create temporary file on disk for video upload"],
        effects := spool, fetched := some video }
    | some random =>
    let tempName := createTempName w.tempDir "" "tubely-upload.mp4" random
    let tempFilePath := filepathJoin [w.tempDir, tempName]
    let deferred := [Effect.closeTemp tempName, Effect.remove tempFilePath]
    let staged := [Effect.createTemp tempName, Effect.copyToTemp tempName file.data,
      Effect.seekStart tempName]
    let encodedName := String.mk (base64RawURLEncode w.randomBytes)
    let assetName := encodedName ++ "." ++ subType
    let put := Effect.putObject cfg.s3Bucket assetName tempName mediaType
    if w.putObjectErr assetName then
      { writes := [Response.error 500 "Couldn't upload file to S3"]
        effects := spool ++ staged ++ [put] ++ deferred
        fetched := some video }
    else
    let s3URL := "https://" ++ cfg.s3Bucket ++ ".s3." ++ cfg.s3Region ++ ".amazonaws.com/"
      ++ assetName
    let updated : Video :=
      { ID := video.ID
        CreatedAt := video.CreatedAt
        UpdatedAt := w.now
        ThumbnailURL := video.ThumbnailURL
        VideoURL := some s3URL
        Title := video.Title
        Description := video.Description
        UserID := video.UserID }
    { writes := []
      effects := spool ++ staged ++ [put, Effect.updateVideo updated] ++ deferred
      fetched := some video }
  | _ =>
    { writes := [Response.error 400 "malformed Content-Type header"], effects := spool,
      fetched := some video }

/-! ## The file system seen through the effects -/

/-- The set of paths that exist after one mutating call: creating a file adds its path,
removing a path deletes it. A path is kept in the form `filepath.Clean` gives it, so that
two spellings of one path (`./x` and `x`) name one file. Names that differ after cleaning
are taken as different files; symbolic links and the working directory are not modelled. -/
def applyEffect (files : List String) : Effect → List String
  | .spoolTemp p => if filepathClean p ∈ files then files else filepathClean p :: files
  | .createFile p => if filepathClean p ∈ files then files else filepathClean p :: files
  | .createTemp p => if filepathClean p ∈ files then files else filepathClean p :: files
  | .remove p => files.filter (fun q => q ≠ filepathClean p)
  | _ => files

/-- The paths that exist after a run. -/
def filesAfter (files : List String) (effects : List Effect) : List String :=
  effects.foldl applyEffect files

/-! ## Concrete inputs used to instantiate the theorems -/

/-- A configuration as the server would load it from its environment. -/
def demoCfg : apiConfig :=
  { jwtSecret := "secret", assetsRoot := "./assets", port := "8091",
    s3Bucket := "tubely-bucket", s3Region := "us-east-2" }

/-- The path value of the demo requests, a UUID in canonical form. -/
def demoID : String := "3f2a0cbb-8a0e-4a9e-9d6c-2b1f0e6d7c55"

/-- A stored video record owned by user 42. -/
def demoVideo : Video :=
  { ID := 7, CreatedAt := 100, UpdatedAt := 100, ThumbnailURL := some "old-thumbnail",
    VideoURL := some "old-video", Title := "title", Description := "description",
    UserID := 42 }

/-- The record the thumbnail handler writes for `demoVideo` and a PNG upload at time 200. -/
def demoThumbnailUpdate : Video :=
  { ID := 7, CreatedAt := 100, UpdatedAt := 200
    ThumbnailURL := some "http://localhost:8091/assets/3f2a0cbb-8a0e-4a9e-9d6c-2b1f0e6d7c55.png"
    VideoURL := some "old-video", Title := "title", Description := "description"
    UserID := 42 }

/-- A world in which the token `tok` belongs to `user`, the database holds `demoVideo`
under the id of `demoID`, and the remaining answers are the given ones. -/
def demoWorld (user : UUID) (copyErr updateErr : Bool) : World :=
  { uuidParse := fun s => if s = demoID then some 7 else none
    validateJWT := fun t s => if t = "tok" ∧ s = "secret" then some user else none
    getVideo := fun i => if i = 7 then some demoVideo else none
    updateVideoErr := fun _ => updateErr
    createErr := fun _ => false
    copyErr := copyErr
    tempDir := "/tmp"
    createTempRandom := some "2731458"
    randomBytes := List.range 32
    putObjectErr := fun _ => false
    now := 200
    mediaParamsErr := fun _ => false }

/-- A request for `demoID` with bearer token `tok` and one uploaded file of three bytes
with the given declared content type. -/
def demoRequest (contentType : String) : Request :=
  { videoIDString := demoID, bearer := some "tok"
    parseMultipartForm := fun _ => { err := false, spooled := [] }
    formFile := fun _ => some { contentType := contentType, data := [1, 2, 3] } }

/-- A request like `demoRequest` whose file part holds 20 MiB: parsing the form with a
memory limit below that size spools the part to a temporary file. -/
def demoLargeRequest (contentType : String) : Request :=
  { videoIDString := demoID, bearer := some "tok"
    parseMultipartForm := fun maxMemory =>
      { err := false
        spooled := if maxMemory < 20 * 2 ^ 20 then ["/tmp/multipart-3151269874"] else [] }
    formFile := fun _ =>
      some { contentType := contentType, data := List.replicate (20 * 2 ^ 20) 0 } }

/-- The name `os.CreateTemp` gives the staging file in the demo world. -/
def demoTemp : String := "/tmp/tubely-upload.mp42731458"

/-- The path the deferred `os.Remove` is called with in the demo world. -/
def demoRemoved : String := "/tmp/tmp/tubely-upload.mp42731458"

/-- The object key of the demo world (random bytes 0 to 31) for a sub-type. -/
def demoKey (sub : String) : String := "AAECAwQFBgcICQoLDA0ODxAREhMUFRYXGBkaGxwdHh8." ++ sub

/-- The record the video handler passes to `UpdateVideo` for `demoVideo` at time 200. -/
def demoVideoUpdate (sub : String) : Video :=
  { ID := 7, CreatedAt := 100, UpdatedAt := 200, ThumbnailURL := some "old-thumbnail"
    VideoURL := some ("https://tubely-bucket.s3.us-east-2.amazonaws.com/" ++ demoKey sub)
    Title := "title", Description := "description", UserID := 42 }

/-- The mutating calls of a complete run of the video handler in the demo world. -/
def demoVideoEffects (mediaType sub : String) : List Effect :=
  [Effect.createTemp demoTemp, Effect.copyToTemp demoTemp [1, 2, 3],
    Effect.seekStart demoTemp,
    Effect.putObject "tubely-bucket" (demoKey sub) demoTemp mediaType,
    Effect.updateVideo (demoVideoUpdate sub), Effect.closeTemp demoTemp,
    Effect.remove demoRemoved]

/-- The demo world with another draw of the random source: 32 bytes of value 255. -/
def demoWorldOnes : World :=
  { demoWorld 42 false false with randomBytes := List.replicate 32 255 }

/-! ## Lemmas on the string functions -/

theorem splitOnChar_ne_nil (sep : Char) (l : List Char) : splitOnChar sep l ≠ [] := by
  cases l with
  | nil => simp [splitOnChar]
  | cons c cs =>
    simp only [splitOnChar]
    split
    · simp
    · split <;> simp

theorem splitOnChar_of_not_mem (sep : Char) (l : List Char) (h : sep ∉ l) :
    splitOnChar sep l = [l] := by
  induction l with
  | nil => rfl
  | cons c cs ih =>
    have hc : c ≠ sep := fun e => h (by simp [e])
    have hcs : sep ∉ cs := fun e => h (by simp [e])
    simp [splitOnChar, ih hcs, hc]

theorem stringsSplit_image (sub : String) (h : '/' ∉ sub.data) :
    stringsSplit ("image/" ++ sub) = ["image", sub] := by
  have e : ("image/" ++ sub).data = 'i' :: 'm' :: 'a' :: 'g' :: 'e' :: '/' :: sub.data := by
    simp [String.data_append]
  simp [stringsSplit, e, splitOnChar, splitOnChar_of_not_mem _ _ h]

theorem length_splitOnChar (sep : Char) (l : List Char) :
    (splitOnChar sep l).length = l.count sep + 1 := by
  induction l with
  | nil => rfl
  | cons c cs ih =>
    simp only [splitOnChar]
    cases h : splitOnChar sep cs with
    | nil => exact absurd h (splitOnChar_ne_nil sep cs)
    | cons p ps =>
      rw [h] at ih
      by_cases hc : c = sep
      · subst hc
        simp at ih ⊢
        omega
      · have hc2 : ¬ (c == sep) = true := by simpa using hc
        simp [hc, List.count_cons, hc2] at ih ⊢
        omega

theorem head_splitOnChar (sep : Char) (l : List Char) :
    (splitOnChar sep l).head? = some (l.takeWhile (fun c => c ≠ sep)) := by
  induction l with
  | nil => rfl
  | cons c cs ih =>
    simp only [splitOnChar]
    cases h : splitOnChar sep cs with
    | nil => exact absurd h (splitOnChar_ne_nil sep cs)
    | cons p ps =>
      rw [h] at ih
      by_cases hc : c = sep
      · simp [hc, List.takeWhile]
      · simp at ih
        simp [hc, List.takeWhile, ih]

theorem stringsSplit_two (s mainType subType : String)
    (h : stringsSplit s = [mainType, subType]) :
    s.data.count '/' = 1 ∧ mainType.data = s.data.takeWhile (fun c => c ≠ '/') := by
  unfold stringsSplit at h
  have hl := length_splitOnChar '/' s.data
  have hh := head_splitOnChar '/' s.data
  cases hs : splitOnChar '/' s.data with
  | nil => simp [hs] at h
  | cons p ps =>
    rw [hs] at h hl hh
    have hlen := congrArg List.length h
    simp at hlen hl hh h
    refine ⟨by omega, ?_⟩
    rw [← h.1]
    simpa using hh

/-! ## Lemmas on the base64 encoding -/

theorem length_base64RawURLEncode (l : List Nat) :
    (base64RawURLEncode l).length = (l.length * 8 + 5) / 6 := by
  induction l using base64RawURLEncode.induct with
  | case1 a b c rest ih =>
    simp only [base64RawURLEncode, List.length_cons, ih]
    omega
  | case2 a b => simp [base64RawURLEncode]
  | case3 a => simp [base64RawURLEncode]
  | case4 => simp [base64RawURLEncode]

theorem b64_mem (k : Nat) : b64 k ∈ encodeURL := by
  have h : k % 64 < encodeURL.length := by
    have : encodeURL.length = 64 := by decide
    omega
  unfold b64
  rw [List.getD_eq_getElem _ _ h]
  exact List.getElem_mem h

theorem urlSafe_b64 (k : Nat) : urlSafe (b64 k) = true := by
  have h : ∀ c ∈ encodeURL, urlSafe c = true := by decide
  exact h _ (b64_mem k)

theorem urlSafe_base64RawURLEncode (l : List Nat) :
    ∀ c ∈ base64RawURLEncode l, urlSafe c = true := by
  induction l using base64RawURLEncode.induct with
  | case1 a b c rest ih =>
    simp only [base64RawURLEncode, List.mem_cons]
    rintro x (h | h | h | h | h)
    · rw [h]; exact urlSafe_b64 _
    · rw [h]; exact urlSafe_b64 _
    · rw [h]; exact urlSafe_b64 _
    · rw [h]; exact urlSafe_b64 _
    · exact ih x h
  | case2 a b => simp [base64RawURLEncode, urlSafe_b64]
  | case3 a => simp [base64RawURLEncode, urlSafe_b64]
  | case4 => simp [base64RawURLEncode]

theorem b64_inj (i j : Nat) (h : b64 i = b64 j) : i % 64 = j % 64 := by
  have hl : encodeURL.length = 64 := by decide
  have hi : i % 64 < encodeURL.length := by omega
  have hj : j % 64 < encodeURL.length := by omega
  have hn : encodeURL.Nodup := by decide
  unfold b64 at h
  rw [List.getD_eq_getElem _ _ hi, List.getD_eq_getElem _ _ hj] at h
  exact (List.Nodup.getElem_inj_iff hn).1 h

theorem base64RawURLEncode_inj (l₁ : List Nat) :
    ∀ l₂ : List Nat, (∀ x ∈ l₁, x < 256) → (∀ x ∈ l₂, x < 256) → l₁.length = l₂.length →
      base64RawURLEncode l₁ = base64RawURLEncode l₂ → l₁ = l₂ := by
  induction l₁ using base64RawURLEncode.induct with
  | case1 a b c rest ih =>
    intro l₂ h₁ h₂ hlen he
    match l₂, hlen with
    | x :: y :: z :: more, hlen =>
      simp only [base64RawURLEncode, List.cons.injEq] at he
      obtain ⟨e1, e2, e3, e4, e5⟩ := he
      have ha := h₁ a (by simp)
      have hb := h₁ b (by simp)
      have hc := h₁ c (by simp)
      have hx := h₂ x (by simp)
      have hy := h₂ y (by simp)
      have hz := h₂ z (by simp)
      have q1 := b64_inj _ _ e1
      have q2 := b64_inj _ _ e2
      have q3 := b64_inj _ _ e3
      have q4 := b64_inj _ _ e4
      have hrest : rest = more := by
        apply ih more
        · intro v hv
          exact h₁ v (by simp [hv])
        · intro v hv
          exact h₂ v (by simp [hv])
        · simpa using hlen
        · exact e5
      have hax : a = x := by omega
      have hby : b = y := by omega
      have hcz : c = z := by omega
      rw [hax, hby, hcz, hrest]
  | case2 a b =>
    intro l₂ h₁ h₂ hlen he
    match l₂, hlen with
    | [x, y], _ =>
      simp only [base64RawURLEncode, List.cons.injEq] at he
      obtain ⟨e1, e2, e3, _⟩ := he
      have ha := h₁ a (by simp)
      have hb := h₁ b (by simp)
      have hx := h₂ x (by simp)
      have hy := h₂ y (by simp)
      have q1 := b64_inj _ _ e1
      have q2 := b64_inj _ _ e2
      have q3 := b64_inj _ _ e3
      have hax : a = x := by omega
      have hby : b = y := by omega
      rw [hax, hby]
  | case3 a =>
    intro l₂ h₁ h₂ hlen he
    match l₂, hlen with
    | [x], _ =>
      simp only [base64RawURLEncode, List.cons.injEq] at he
      obtain ⟨e1, e2, _⟩ := he
      have ha := h₁ a (by simp)
      have hx := h₂ x (by simp)
      have q1 := b64_inj _ _ e1
      have q2 := b64_inj _ _ e2
      have hax : a = x := by omega
      rw [hax]
  | case4 =>
    intro l₂ _ _ hlen _
    match l₂, hlen with
    | [], _ => rfl

/-! ## Lemmas on the media type parser -/

theorem splitOnChar_append_sep (sep : Char) (a b : List Char) (h : sep ∉ a) :
    splitOnChar sep (a ++ sep :: b) = a :: splitOnChar sep b := by
  induction a with
  | nil =>
    simp only [List.nil_append, splitOnChar]
    cases hb : splitOnChar sep b with
    | nil => exact absurd hb (splitOnChar_ne_nil sep b)
    | cons p ps => simp
  | cons c cs ih =>
    have hc : c ≠ sep := fun e => h (by simp [e])
    have hcs : sep ∉ cs := fun e => h (by simp [e])
    rw [List.cons_append, splitOnChar, ih hcs]
    simp [hc]

theorem slash_not_mem_of_tokens (l : List Char) (h : ∀ c ∈ l, isTokenChar c = true) :
    '/' ∉ l := by
  intro hm
  have := h _ hm
  revert this
  decide

theorem checkMediaTypeDisposition_shape (m : List Char)
    (h : checkMediaTypeDisposition m = true) :
    '/' ∉ m ∨ ∃ a b, a ≠ [] ∧ b ≠ [] ∧ splitOnChar '/' m = [a, b] := by
  unfold checkMediaTypeDisposition consumeToken at h
  have hm := List.takeWhile_append_dropWhile isTokenChar m
  have ht : ∀ c ∈ m.takeWhile isTokenChar, isTokenChar c = true :=
    fun c hc => List.mem_takeWhile_imp hc
  generalize m.takeWhile isTokenChar = typ at h hm ht
  generalize m.dropWhile isTokenChar = rest at h hm
  cases typ with
  | nil => simp at h
  | cons t ts =>
    cases rest with
    | nil =>
      left
      rw [← hm]
      simpa using slash_not_mem_of_tokens _ ht
    | cons c rest1 =>
      simp only [] at h
      by_cases hc : c = '/'
      · subst hc
        simp only [ne_eq, not_true_eq_false, if_false] at h
        have hm2 := List.takeWhile_append_dropWhile isTokenChar rest1
        have ht2 : ∀ c ∈ rest1.takeWhile isTokenChar, isTokenChar c = true :=
          fun c hc => List.mem_takeWhile_imp hc
        generalize rest1.takeWhile isTokenChar = sub at h hm2 ht2
        generalize rest1.dropWhile isTokenChar = rest2 at h hm2
        cases sub with
        | nil => simp at h
        | cons u us =>
          cases rest2 with
          | nil =>
            right
            refine ⟨t :: ts, u :: us, by simp, by simp, ?_⟩
            rw [← hm, ← hm2, List.append_nil,
              splitOnChar_append_sep _ _ _ (slash_not_mem_of_tokens _ ht),
              splitOnChar_of_not_mem _ _ (slash_not_mem_of_tokens _ ht2)]
          | cons d ds => simp at h
      · simp [hc] at h

theorem mimeParseMediaType_eq_none (paramsErr : String → Bool) (v : String)
    (h : checkMediaTypeDisposition (mediaTypeBase v) = false) :
    mimeParseMediaType paramsErr v = none := by
  simp [mimeParseMediaType, h]

theorem mimeParseMediaType_eq_some (paramsErr : String → Bool) (v mediaType : String)
    (h : mimeParseMediaType paramsErr v = some mediaType) :
    mediaType.data = mediaTypeBase v := by
  unfold mimeParseMediaType at h
  simp only [] at h
  split at h
  · simp at h
  · split at h
    · simp at h
      rw [← h]
    · split at h
      · simp at h
      · simp at h
        rw [← h]

theorem mimeParseMediaType_token (paramsErr : String → Bool) (v : String)
    (hsemi : ';' ∉ v.data) (hne : mediaTypeBase v ≠ [])
    (htok : ∀ c ∈ mediaTypeBase v, isTokenChar c = true) :
    mimeParseMediaType paramsErr v = some (String.mk (mediaTypeBase v)) := by
  have hcheck : checkMediaTypeDisposition (mediaTypeBase v) = true := by
    have h1 : (mediaTypeBase v).takeWhile isTokenChar = mediaTypeBase v :=
      List.takeWhile_eq_self_iff.2 htok
    have h2 : (mediaTypeBase v).dropWhile isTokenChar = [] :=
      List.dropWhile_eq_nil_iff.2 htok
    unfold checkMediaTypeDisposition consumeToken
    rw [h1, h2]
    cases hm : mediaTypeBase v with
    | nil => exact absurd hm hne
    | cons c cs => rfl
  simp [mimeParseMediaType, hcheck]
  intro h
  exact absurd h hsemi

theorem stringsSplit_of_not_mem (s : String) (h : '/' ∉ s.data) : stringsSplit s = [s] := by
  simp [stringsSplit, splitOnChar_of_not_mem _ _ h]

/-! ## Lemmas on the handlers -/

theorem video_parse_error (cfg : apiConfig) (w : World) (r : Request) (videoID : UUID)
    (token : String) (file : FormFile) (video : Video)
    (hid : w.uuidParse r.videoIDString = some videoID) (hb : r.bearer = some token)
    (hj : w.validateJWT token cfg.jwtSecret = some video.UserID)
    (hv : w.getVideo videoID = some video)
    (hm : (r.parseMultipartForm defaultMaxMemory).err = false)
    (hf : r.formFile "video" = some file) (hne : file.contentType ≠ "")
    (hp : mimeParseMediaType w.mediaParamsErr file.contentType = none) :
    handlerUploadVideo cfg w r =
      { writes := [Response.error 500 "Couldn't parse mime type"],
        effects := (r.parseMultipartForm defaultMaxMemory).spooled.map Effect.spoolTemp,
        fetched := some video } := by
  unfold handlerUploadVideo
  simp [hid, hb, hj, hv, hm, hf, hne, hp, spoolEffects]

theorem video_no_slash (cfg : apiConfig) (w : World) (r : Request) (videoID : UUID)
    (token mediaType : String) (file : FormFile) (video : Video)
    (hid : w.uuidParse r.videoIDString = some videoID) (hb : r.bearer = some token)
    (hj : w.validateJWT token cfg.jwtSecret = some video.UserID)
    (hv : w.getVideo videoID = some video)
    (hm : (r.parseMultipartForm defaultMaxMemory).err = false)
    (hf : r.formFile "video" = some file) (hne : file.contentType ≠ "")
    (hp : mimeParseMediaType w.mediaParamsErr file.contentType = some mediaType)
    (hs : '/' ∉ mediaType.data) :
    handlerUploadVideo cfg w r =
      { writes := [Response.error 400 "malformed Content-Type header"],
        effects := (r.parseMultipartForm defaultMaxMemory).spooled.map Effect.spoolTemp,
        fetched := some video } := by
  unfold handlerUploadVideo
  simp [hid, hb, hj, hv, hm, hf, hne, hp, spoolEffects, stringsSplit_of_not_mem _ hs]

theorem not_mem_spoolEffects (form : MultipartParse) (e : Effect)
    (h : ∀ name, e ≠ Effect.spoolTemp name) : e ∉ spoolEffects form := by
  intro hm
  obtain ⟨name, _, hn⟩ := List.mem_map.1 hm
  exact h name hn.symm

theorem not_mem_spoolFailedEffects (form : MultipartParse) (e : Effect)
    (h : ∀ name, e ≠ Effect.spoolTemp name) (h2 : ∀ name, e ≠ Effect.remove name) :
    e ∉ spoolFailedEffects form := by
  intro hm
  rcases List.mem_append.1 hm with hm | hm
  · obtain ⟨name, _, hn⟩ := List.mem_map.1 hm
    exact h name hn.symm
  · obtain ⟨name, _, hn⟩ := List.mem_map.1 hm
    exact h2 name hn.symm

theorem putObject_key (cfg : apiConfig) (w : World) (r : Request)
    (bucket key body contentType : String)
    (h : Effect.putObject bucket key body contentType ∈ (handlerUploadVideo cfg w r).effects) :
    ∃ sub, key = String.mk (base64RawURLEncode w.randomBytes) ++ "." ++ sub := by
  have hs := not_mem_spoolEffects (r.parseMultipartForm defaultMaxMemory)
    (Effect.putObject bucket key body contentType) (by simp)
  have hf := not_mem_spoolFailedEffects (r.parseMultipartForm defaultMaxMemory)
    (Effect.putObject bucket key body contentType) (by simp) (by simp)
  revert h
  unfold handlerUploadVideo
  cases h1 : w.uuidParse r.videoIDString <;> simp only [reject]
  · simp
  cases h2 : w.getVideo _ <;> simp only []
  · repeat' split
    all_goals simp
  cases h3 : w.createTempRandom <;> simp only []
  · repeat' split
    all_goals simp [hs, hf]
  · repeat' split
    all_goals first
      | (simp [hs, hf]; done)
      | (simp only [List.mem_cons, List.mem_append, List.mem_singleton, List.not_mem_nil,
          Effect.putObject.injEq, reduceCtorEq, false_or, or_false, hs]
         rintro ⟨_, hk, _, _⟩
         exact ⟨_, hk⟩)

/-! ## Theorems -/

/-- C1, counterexample: user 43 sends a thumbnail of 20 MiB for the video of user 42.
The handler parses the form with a limit of 10 MiB before it fetches the record, so a
temporary file exists when the request is refused with 401. -/
theorem not_owner_thumbnail_spools_temp_file :
    handlerUploadThumbnail demoCfg (demoWorld 43 false false) (demoLargeRequest "image/png") =
      { writes := [Response.error 401 "access permitted"],
        effects := [Effect.spoolTemp "/tmp/multipart-3151269874"],
        fetched := some demoVideo } ∧
    "/tmp/multipart-3151269874" ∈ filesAfter []
      (handlerUploadThumbnail demoCfg (demoWorld 43 false false)
        (demoLargeRequest "image/png")).effects := by
  decide

/-- C1, amended: when the authenticated user is not the owner of the record the handler
fetched, both handlers answer with the single error 401 "access permitted".
`handlerUploadVideo` has made no mutating call at all. `handlerUploadThumbnail` has made
no mutating call of its own, no asset file, no object put, no `UpdateVideo`: the only
files created are the ones `r.ParseMultipartForm(10 << 20)` spooled before the check. -/
theorem not_owner_rejected_before_storage (cfg : apiConfig) (w : World) (r : Request)
    (token : String) (userID : UUID) (video : Video) (hb : r.bearer = some token)
    (hj : w.validateJWT token cfg.jwtSecret = some userID) (hne : video.UserID ≠ userID) :
    ((handlerUploadThumbnail cfg w r).fetched = some video →
      handlerUploadThumbnail cfg w r =
        { writes := [Response.error 401 "access permitted"],
          effects := (r.parseMultipartForm (10 <<< 20)).spooled.map Effect.spoolTemp,
          fetched := some video }) ∧
    ((handlerUploadVideo cfg w r).fetched = some video →
      handlerUploadVideo cfg w r =
        { writes := [Response.error 401 "access permitted"], effects := [],
          fetched := some video }) := by
  constructor
  · unfold handlerUploadThumbnail
    simp only [hb, hj]
    cases h1 : w.uuidParse r.videoIDString <;> simp only [reject]
    · simp
    cases h2 : w.getVideo _ <;> simp only []
    · repeat' split
      all_goals simp
    · repeat' split
      all_goals simp_all [spoolEffects]
      all_goals (rintro rfl; contradiction)
  · unfold handlerUploadVideo
    simp only [hb, hj]
    cases h1 : w.uuidParse r.videoIDString <;> simp only [reject]
    · simp
    cases h2 : w.getVideo _ <;> simp only []
    · simp
    cases h3 : w.createTempRandom <;> simp only []
    · repeat' split
      all_goals simp_all
      all_goals (rintro rfl; contradiction)
    · repeat' split
      all_goals simp_all
      all_goals (rintro rfl; contradiction)

/-- Witness of the amended C1: user 43 asks for the video of user 42 with a file part of
20 MiB; the thumbnail handler leaves the spooled file, the video handler nothing. -/
theorem not_owner_rejected_before_storage_witness :
    handlerUploadThumbnail demoCfg (demoWorld 43 false false) (demoLargeRequest "image/png") =
      { writes := [Response.error 401 "access permitted"],
        effects := [Effect.spoolTemp "/tmp/multipart-3151269874"],
        fetched := some demoVideo } ∧
    handlerUploadVideo demoCfg (demoWorld 43 false false) (demoLargeRequest "video/mp4") =
      { writes := [Response.error 401 "access permitted"], effects := [],
        fetched := some demoVideo } :=
  ⟨(not_owner_rejected_before_storage demoCfg (demoWorld 43 false false)
      (demoLargeRequest "image/png") "tok" 43 demoVideo rfl rfl (by decide)).1 (by decide),
   (not_owner_rejected_before_storage demoCfg (demoWorld 43 false false)
      (demoLargeRequest "video/mp4") "tok" 43 demoVideo rfl rfl (by decide)).2 (by decide)⟩

/-- C2, the code at the failing input: the owner declares `video/webm`. The condition
`mainType != "video" && subType != "mp4"` is false, so nothing is rejected: no response is
written, the upload is staged, put to the object store under a `.webm` key and the record
is updated. -/
theorem video_webm_passes_the_check :
    handlerUploadVideo demoCfg (demoWorld 42 false false) (demoRequest "video/webm") =
      { writes := [], effects := demoVideoEffects "video/webm" "webm",
        fetched := some demoVideo } := by
  decide

/-- C3: every record a handler passes to `UpdateVideo` is the record `GetVideo` returned
for the parsed id, with `UpdatedAt` set to the current time and one reference replaced:
`ThumbnailURL` in `handlerUploadThumbnail`, `VideoURL` in `handlerUploadVideo`. All other
fields, `UserID` among them, are the fetched ones. -/
theorem update_keeps_other_fields (cfg : apiConfig) (w : World) (r : Request)
    (updated : Video) :
    (Effect.updateVideo updated ∈ (handlerUploadThumbnail cfg w r).effects →
      ∃ id video url, w.uuidParse r.videoIDString = some id ∧ w.getVideo id = some video ∧
        updated = { video with UpdatedAt := w.now, ThumbnailURL := some url }) ∧
    (Effect.updateVideo updated ∈ (handlerUploadVideo cfg w r).effects →
      ∃ id video url, w.uuidParse r.videoIDString = some id ∧ w.getVideo id = some video ∧
        updated = { video with UpdatedAt := w.now, VideoURL := some url }) := by
  have hs : ∀ form, Effect.updateVideo updated ∉ spoolEffects form :=
    fun form => not_mem_spoolEffects form _ (by simp)
  have hf : ∀ form, Effect.updateVideo updated ∉ spoolFailedEffects form :=
    fun form => not_mem_spoolFailedEffects form _ (by simp) (by simp)
  constructor
  · unfold handlerUploadThumbnail
    cases h1 : w.uuidParse r.videoIDString <;> simp only [reject]
    · simp
    cases h2 : w.getVideo _ <;> simp only []
    · repeat' split
      all_goals simp [hs, hf]
    · repeat' split
      all_goals first
        | (simp [hs, hf]; done)
        | (simp only [List.mem_cons, List.mem_append, List.mem_singleton, List.not_mem_nil,
            Effect.updateVideo.injEq, reduceCtorEq, false_or, or_false, hs]
           intro h
           exact ⟨_, _, _, rfl, h2, h⟩)
  · unfold handlerUploadVideo
    cases h1 : w.uuidParse r.videoIDString <;> simp only [reject]
    · simp
    cases h2 : w.getVideo _ <;> simp only []
    · repeat' split
      all_goals simp
    cases h3 : w.createTempRandom <;> simp only []
    · repeat' split
      all_goals simp [hs, hf]
    · repeat' split
      all_goals first
        | (simp [hs, hf]; done)
        | (simp only [List.mem_cons, List.mem_append, List.mem_singleton, List.not_mem_nil,
            Effect.updateVideo.injEq, reduceCtorEq, false_or, or_false, hs]
           intro h
           exact ⟨_, _, _, rfl, h2, h⟩)

/-- Witness of C3: the owner uploads a PNG thumbnail. -/
theorem update_keeps_other_fields_witness :
    ∃ id video url,
      (demoWorld 42 false false).uuidParse (demoRequest "image/png").videoIDString = some id ∧
      (demoWorld 42 false false).getVideo id = some video ∧
      demoThumbnailUpdate =
        { video with UpdatedAt := (demoWorld 42 false false).now, ThumbnailURL := some url } :=
  (update_keeps_other_fields demoCfg (demoWorld 42 false false) (demoRequest "image/png")
    demoThumbnailUpdate).1 (by decide)

/-- C4: the owner uploads a thumbnail declared as `image/<sub>`, for any sub-type (a
sub-type holds no slash), and the file system and the database accept the writes. Then the
content-type check lets the upload pass; after the files spooled by the parsing of the
form, the mutating calls are that the asset file is created and written at
`filepath.Join(assetsRoot, key)` with key `<video id>.<sub>`, and the record stored and
returned has the thumbnail reference `http://localhost:<port>/assets/<key>`, which
contains the key. -/
theorem thumbnail_image_key_and_locator (cfg : apiConfig) (w : World) (r : Request)
    (videoID userID : UUID) (token sub : String) (file : FormFile) (metaData : Video)
    (hid : w.uuidParse r.videoIDString = some videoID) (hb : r.bearer = some token)
    (hj : w.validateJWT token cfg.jwtSecret = some userID)
    (hm : (r.parseMultipartForm (10 <<< 20)).err = false)
    (hf : r.formFile "thumbnail" = some file) (hct : file.contentType = "image/" ++ sub)
    (hsub : '/' ∉ sub.data) (hv : w.getVideo videoID = some metaData)
    (hown : metaData.UserID = userID)
    (hcreate : w.createErr (filepathJoin [cfg.assetsRoot, r.videoIDString ++ "." ++ sub])
      = false)
    (hcopy : w.copyErr = false) (hupd : ∀ v, w.updateVideoErr v = false) :
    handlerUploadThumbnail cfg w r =
      { writes := [Response.json 200
          { metaData with
            UpdatedAt := w.now
            ThumbnailURL := some ("http://localhost:" ++ cfg.port ++ "/assets/" ++
              (r.videoIDString ++ "." ++ sub)) }]
        effects := (r.parseMultipartForm (10 <<< 20)).spooled.map Effect.spoolTemp ++ [
          Effect.createFile (filepathJoin [cfg.assetsRoot, r.videoIDString ++ "." ++ sub]),
          Effect.copyToFile (filepathJoin [cfg.assetsRoot, r.videoIDString ++ "." ++ sub])
            file.data,
          Effect.updateVideo
            { metaData with
              UpdatedAt := w.now
              ThumbnailURL := some ("http://localhost:" ++ cfg.port ++ "/assets/" ++
                (r.videoIDString ++ "." ++ sub)) }]
        fetched := some metaData } ∧
    (r.videoIDString ++ "." ++ sub).data <:+:
      ("http://localhost:" ++ cfg.port ++ "/assets/" ++ (r.videoIDString ++ "." ++ sub)).data
    := by
  constructor
  · have hne : ("image/" ++ sub = "") = False := by
      simp [String.ext_iff, String.data_append]
    unfold handlerUploadThumbnail
    have hm2 : (r.parseMultipartForm 10485760).err = false := hm
    simp [hid, hb, hj, hm2, hf, hct, hne, stringsSplit_image sub hsub, hv, hown, hcreate,
      hcopy, hupd, spoolEffects]
  · exact ⟨("http://localhost:" ++ cfg.port ++ "/assets/").data, [], by
      simp [String.data_append]⟩

/-- Witness of C4: the owner uploads `image/png`; the key is `<video id>.png`. -/
theorem thumbnail_image_key_and_locator_witness :
    handlerUploadThumbnail demoCfg (demoWorld 42 false false) (demoRequest "image/png") =
      { writes := [Response.json 200 demoThumbnailUpdate]
        effects := [
          Effect.createFile "assets/3f2a0cbb-8a0e-4a9e-9d6c-2b1f0e6d7c55.png",
          Effect.copyToFile "assets/3f2a0cbb-8a0e-4a9e-9d6c-2b1f0e6d7c55.png" [1, 2, 3],
          Effect.updateVideo demoThumbnailUpdate]
        fetched := some demoVideo } ∧
    "3f2a0cbb-8a0e-4a9e-9d6c-2b1f0e6d7c55.png".data <:+:
      "http://localhost:8091/assets/3f2a0cbb-8a0e-4a9e-9d6c-2b1f0e6d7c55.png".data :=
  thumbnail_image_key_and_locator demoCfg (demoWorld 42 false false) (demoRequest "image/png")
    7 42 "tok" "png" ⟨"image/png", [1, 2, 3]⟩ demoVideo rfl rfl rfl rfl rfl rfl (by decide)
    rfl rfl rfl rfl (fun _ => rfl)

/-- C5, counterexample: the header `image/` has an empty sub-type. The thumbnail handler
accepts it, stores the asset under the key `<video id>.` and answers 200 with the updated
record; the video handler answers with the server error 500, not with a bad request. -/
theorem empty_subtype_not_rejected :
    handlerUploadThumbnail demoCfg (demoWorld 42 false false) (demoRequest "image/") =
      { writes := [Response.json 200
          { demoVideo with
            UpdatedAt := 200
            ThumbnailURL := some
              "http://localhost:8091/assets/3f2a0cbb-8a0e-4a9e-9d6c-2b1f0e6d7c55." }]
        effects := [
          Effect.createFile "assets/3f2a0cbb-8a0e-4a9e-9d6c-2b1f0e6d7c55.",
          Effect.copyToFile "assets/3f2a0cbb-8a0e-4a9e-9d6c-2b1f0e6d7c55." [1, 2, 3],
          Effect.updateVideo
            { demoVideo with
              UpdatedAt := 200
              ThumbnailURL := some
                "http://localhost:8091/assets/3f2a0cbb-8a0e-4a9e-9d6c-2b1f0e6d7c55." }]
        fetched := some demoVideo } ∧
    handlerUploadVideo demoCfg (demoWorld 42 false false) (demoRequest "image/") =
      { writes := [Response.error 500 "Couldn't parse mime type"], effects := [],
        fetched := some demoVideo } := by
  decide

/-- C5, amended: the checks the handlers do make on the declared content type; the only
mutating calls in all the cases below are the files spooled by the parsing of the form.
In `handlerUploadThumbnail` a header that is empty, holds no slash or more than one, or
whose part before the slash is not `image`, is answered with a bad request (400).
`handlerUploadVideo` looks at the media type of the header, the text before the first `;`
in lower case and trimmed. An empty header is answered with 400. A media type that holds a
slash and does not consist of exactly two non-empty components is answered with the server
error 500. A media type without a slash is answered with 400 or 500, and with 400 when it
is one token and the header holds no `;`. -/
theorem malformed_content_type_rejected (cfg : apiConfig) (w : World) (r : Request)
    (videoID userID : UUID) (token : String)
    (hid : w.uuidParse r.videoIDString = some videoID) (hb : r.bearer = some token)
    (hj : w.validateJWT token cfg.jwtSecret = some userID) :
    (∀ file, (r.parseMultipartForm (10 <<< 20)).err = false →
      r.formFile "thumbnail" = some file →
      (file.contentType = "" ∨ file.contentType.data.count '/' ≠ 1 ∨
        file.contentType.data.takeWhile (fun c => c ≠ '/') ≠ "image".data) →
      ∃ msg, handlerUploadThumbnail cfg w r =
        { writes := [Response.error 400 msg],
          effects := (r.parseMultipartForm (10 <<< 20)).spooled.map Effect.spoolTemp,
          fetched := none }) ∧
    (∀ file video, w.getVideo videoID = some video → video.UserID = userID →
      (r.parseMultipartForm defaultMaxMemory).err = false →
      r.formFile "video" = some file →
      (file.contentType = "" →
        ∃ msg, handlerUploadVideo cfg w r =
          { writes := [Response.error 400 msg],
            effects := (r.parseMultipartForm defaultMaxMemory).spooled.map Effect.spoolTemp,
            fetched := some video }) ∧
      (file.contentType ≠ "" → '/' ∈ mediaTypeBase file.contentType →
        (∀ a b, splitOnChar '/' (mediaTypeBase file.contentType) = [a, b] →
          a = [] ∨ b = []) →
        ∃ msg, handlerUploadVideo cfg w r =
          { writes := [Response.error 500 msg],
            effects := (r.parseMultipartForm defaultMaxMemory).spooled.map Effect.spoolTemp,
            fetched := some video }) ∧
      (file.contentType ≠ "" → '/' ∉ mediaTypeBase file.contentType →
        ∃ code msg, (code = 400 ∨ code = 500) ∧ handlerUploadVideo cfg w r =
          { writes := [Response.error code msg],
            effects := (r.parseMultipartForm defaultMaxMemory).spooled.map Effect.spoolTemp,
            fetched := some video }) ∧
      (file.contentType ≠ "" → ';' ∉ file.contentType.data →
        mediaTypeBase file.contentType ≠ [] →
        (∀ c ∈ mediaTypeBase file.contentType, isTokenChar c = true) →
        ∃ msg, handlerUploadVideo cfg w r =
          { writes := [Response.error 400 msg],
            effects := (r.parseMultipartForm defaultMaxMemory).spooled.map Effect.spoolTemp,
            fetched := some video })) := by
  constructor
  · intro file hm hf hbad
    have hm2 : (r.parseMultipartForm 10485760).err = false := hm
    unfold handlerUploadThumbnail
    simp only [hid, hb, hj, hf, reject, spoolEffects]
    simp only [Nat.reduceShiftLeft, hm2, Bool.false_eq_true, if_false]
    by_cases he : file.contentType = ""
    · simp [he]
    · simp only [he, if_false]
      split
      · rename_i mainType subType hsplit
        have h2 := stringsSplit_two _ _ _ hsplit
        have hmain : mainType ≠ "image" := by
          rintro rfl
          rcases hbad with hbad | hbad | hbad
          · exact he hbad
          · exact hbad h2.1
          · exact hbad h2.2.symm
        simp [hmain]
      · simp
  · intro file video hv hown hm hf
    subst hown
    refine ⟨?_, ?_, ?_, ?_⟩
    · intro he
      unfold handlerUploadVideo
      simp [hid, hb, hj, hv, hm, hf, he, spoolEffects]
    · intro he hslash hbad
      have hcheck : checkMediaTypeDisposition (mediaTypeBase file.contentType) = false := by
        cases hc : checkMediaTypeDisposition (mediaTypeBase file.contentType) with
        | false => rfl
        | true =>
          rcases checkMediaTypeDisposition_shape _ hc with h | ⟨a, b, ha, hb2, hab⟩
          · exact absurd hslash h
          · rcases hbad a b hab with h | h
            · exact absurd h ha
            · exact absurd h hb2
      exact ⟨_, video_parse_error cfg w r videoID token file video hid hb hj hv hm hf he
        (mimeParseMediaType_eq_none _ _ hcheck)⟩
    · intro he hslash
      cases hp : mimeParseMediaType w.mediaParamsErr file.contentType with
      | none =>
        exact ⟨500, _, Or.inr rfl,
          video_parse_error cfg w r videoID token file video hid hb hj hv hm hf he hp⟩
      | some mediaType =>
        have hd := mimeParseMediaType_eq_some _ _ _ hp
        exact ⟨400, _, Or.inl rfl,
          video_no_slash cfg w r videoID token mediaType file video hid hb hj hv hm hf he hp
            (by rw [hd]; exact hslash)⟩
    · intro he hsemi hne htok
      exact ⟨_, video_no_slash cfg w r videoID token _ file video hid hb hj hv hm hf he
        (mimeParseMediaType_token _ _ hsemi hne htok) (slash_not_mem_of_tokens _ htok)⟩

/-- Witness of the amended C5: the thumbnail header `png` holds no slash and is answered
with 400; the video header `image/` has an empty second component and is answered with
500; the video header `video` is one token and is answered with 400. -/
theorem malformed_content_type_rejected_witness :
    (∃ msg, handlerUploadThumbnail demoCfg (demoWorld 42 false false) (demoRequest "png") =
      { writes := [Response.error 400 msg], effects := [], fetched := none }) ∧
    (∃ msg, handlerUploadVideo demoCfg (demoWorld 42 false false) (demoRequest "image/") =
      { writes := [Response.error 500 msg], effects := [], fetched := some demoVideo }) ∧
    (∃ msg, handlerUploadVideo demoCfg (demoWorld 42 false false) (demoRequest "video") =
      { writes := [Response.error 400 msg], effects := [], fetched := some demoVideo }) :=
  ⟨(malformed_content_type_rejected demoCfg (demoWorld 42 false false) (demoRequest "png")
      7 42 "tok" rfl rfl rfl).1 ⟨"png", [1, 2, 3]⟩ rfl rfl (Or.inr (Or.inl (by decide))),
   ((malformed_content_type_rejected demoCfg (demoWorld 42 false false)
      (demoRequest "image/") 7 42 "tok" rfl rfl rfl).2 ⟨"image/", [1, 2, 3]⟩ demoVideo
      rfl rfl rfl rfl).2.1 (by decide) (by decide)
      (fun a b h => by
        have e : splitOnChar '/' (mediaTypeBase "image/") = ["image".data, []] := by decide
        rw [e] at h
        simp only [List.cons.injEq, and_true] at h
        exact Or.inr h.2.symm),
   ((malformed_content_type_rejected demoCfg (demoWorld 42 false false) (demoRequest "video")
      7 42 "tok" rfl rfl rfl).2 ⟨"video", [1, 2, 3]⟩ demoVideo rfl rfl rfl rfl).2.2.2
      (by decide) (by decide) (by decide) (by decide)⟩

/-- C6: an upload of the owner passes the content-type check of `handlerUploadVideo` with
sub-type `sub`, the staging file is created, the random source gives 32 bytes and
`PutObject` succeeds. Then, after the files spooled by the parsing of the form, the
object is put under the key `<enc>.<sub>`, where `<enc>` is
the unpadded URL-safe base64 encoding of the random bytes, 43 characters long and made of
URL-safe characters only, and the record passed to `UpdateVideo` has the video reference
`https://<bucket>.s3.<region>.amazonaws.com/<key>`. -/
theorem video_key_and_reference (cfg : apiConfig) (w : World) (r : Request)
    (videoID userID : UUID) (token mediaType mainType sub random : String) (file : FormFile)
    (video : Video)
    (hid : w.uuidParse r.videoIDString = some videoID) (hb : r.bearer = some token)
    (hj : w.validateJWT token cfg.jwtSecret = some userID)
    (hv : w.getVideo videoID = some video) (hown : video.UserID = userID)
    (hm : (r.parseMultipartForm defaultMaxMemory).err = false)
    (hf : r.formFile "video" = some file) (hne : file.contentType ≠ "")
    (hp : mimeParseMediaType w.mediaParamsErr file.contentType = some mediaType)
    (hs : stringsSplit mediaType = [mainType, sub]) (hacc : mainType = "video" ∨ sub = "mp4")
    (ht : w.createTempRandom = some random) (hlen : w.randomBytes.length = 32)
    (hput : w.putObjectErr (String.mk (base64RawURLEncode w.randomBytes) ++ "." ++ sub)
      = false) :
    handlerUploadVideo cfg w r =
      { writes := []
        effects := (r.parseMultipartForm defaultMaxMemory).spooled.map Effect.spoolTemp ++ [
          Effect.createTemp (createTempName w.tempDir "" "tubely-upload.mp4" random),
          Effect.copyToTemp (createTempName w.tempDir "" "tubely-upload.mp4" random)
            file.data,
          Effect.seekStart (createTempName w.tempDir "" "tubely-upload.mp4" random),
          Effect.putObject cfg.s3Bucket
            (String.mk (base64RawURLEncode w.randomBytes) ++ "." ++ sub)
            (createTempName w.tempDir "" "tubely-upload.mp4" random) mediaType,
          Effect.updateVideo
            { video with
              UpdatedAt := w.now
              VideoURL := some ("https://" ++ cfg.s3Bucket ++ ".s3." ++ cfg.s3Region ++
                ".amazonaws.com/" ++
                (String.mk (base64RawURLEncode w.randomBytes) ++ "." ++ sub)) },
          Effect.closeTemp (createTempName w.tempDir "" "tubely-upload.mp4" random),
          Effect.remove (filepathJoin
            [w.tempDir, createTempName w.tempDir "" "tubely-upload.mp4" random])]
        fetched := some video } ∧
    (base64RawURLEncode w.randomBytes).length = 43 ∧
    ∀ c ∈ base64RawURLEncode w.randomBytes, urlSafe c = true := by
  refine ⟨?_, ?_, urlSafe_base64RawURLEncode _⟩
  · have hacc2 : ¬ (mainType ≠ "video" ∧ sub ≠ "mp4") := by
      rintro ⟨h1, h2⟩
      rcases hacc with h | h
      · exact h1 h
      · exact h2 h
    unfold handlerUploadVideo
    simp [hid, hb, hj, hv, hown, hm, hf, hne, hp, hs, hacc2, ht, hput, spoolEffects]
  · rw [length_base64RawURLEncode, hlen]

/-- Witness of C6: the owner uploads `video/mp4` in the demo world, where the random bytes
are 0 to 31; the key is 43 URL-safe characters followed by `.mp4`. -/
theorem video_key_and_reference_witness :
    handlerUploadVideo demoCfg (demoWorld 42 false false) (demoRequest "video/mp4") =
      { writes := []
        effects := [
          Effect.createTemp "/tmp/tubely-upload.mp42731458",
          Effect.copyToTemp "/tmp/tubely-upload.mp42731458" [1, 2, 3],
          Effect.seekStart "/tmp/tubely-upload.mp42731458",
          Effect.putObject "tubely-bucket" "AAECAwQFBgcICQoLDA0ODxAREhMUFRYXGBkaGxwdHh8.mp4"
            "/tmp/tubely-upload.mp42731458" "video/mp4",
          Effect.updateVideo
            { demoVideo with
              UpdatedAt := 200
              VideoURL := some ("https://tubely-bucket.s3.us-east-2.amazonaws.com/" ++
                "AAECAwQFBgcICQoLDA0ODxAREhMUFRYXGBkaGxwdHh8.mp4") },
          Effect.closeTemp "/tmp/tubely-upload.mp42731458",
          Effect.remove "/tmp/tmp/tubely-upload.mp42731458"]
        fetched := some demoVideo } ∧
    (base64RawURLEncode (List.range 32)).length = 43 ∧
    ∀ c ∈ base64RawURLEncode (List.range 32), urlSafe c = true :=
  video_key_and_reference demoCfg (demoWorld 42 false false) (demoRequest "video/mp4") 7 42
    "tok" "video/mp4" "video" "mp4" "2731458" ⟨"video/mp4", [1, 2, 3]⟩ demoVideo rfl rfl rfl
    rfl rfl rfl rfl (by decide) (by decide) (by decide) (Or.inl rfl) rfl rfl rfl

/-- C7: two runs of `handlerUploadVideo` that put an object and whose 32-byte random
values differ use different keys, whatever the sub-types are. -/
theorem video_keys_differ (cfg₁ cfg₂ : apiConfig) (w₁ w₂ : World) (r₁ r₂ : Request)
    (bucket₁ key₁ body₁ type₁ bucket₂ key₂ body₂ type₂ : String)
    (h₁ : Effect.putObject bucket₁ key₁ body₁ type₁ ∈ (handlerUploadVideo cfg₁ w₁ r₁).effects)
    (h₂ : Effect.putObject bucket₂ key₂ body₂ type₂ ∈ (handlerUploadVideo cfg₂ w₂ r₂).effects)
    (hl₁ : w₁.randomBytes.length = 32) (hl₂ : w₂.randomBytes.length = 32)
    (hb₁ : ∀ x ∈ w₁.randomBytes, x < 256) (hb₂ : ∀ x ∈ w₂.randomBytes, x < 256)
    (hne : w₁.randomBytes ≠ w₂.randomBytes) : key₁ ≠ key₂ := by
  obtain ⟨s₁, e₁⟩ := putObject_key _ _ _ _ _ _ _ h₁
  obtain ⟨s₂, e₂⟩ := putObject_key _ _ _ _ _ _ _ h₂
  intro he
  rw [e₁, e₂] at he
  have hd := congrArg String.data he
  simp only [String.data_append] at hd
  have hlen : (base64RawURLEncode w₁.randomBytes).length =
      (base64RawURLEncode w₂.randomBytes).length := by
    rw [length_base64RawURLEncode, length_base64RawURLEncode, hl₁, hl₂]
  rw [List.append_assoc, List.append_assoc] at hd
  have henc := (List.append_inj hd hlen).1
  exact hne (base64RawURLEncode_inj _ _ hb₁ hb₂ (by rw [hl₁, hl₂]) henc)

/-- Witness of C7: the random bytes 0 to 31 and the random bytes 255 give different keys. -/
theorem video_keys_differ_witness :
    "AAECAwQFBgcICQoLDA0ODxAREhMUFRYXGBkaGxwdHh8.mp4" ≠
      "__________________________________________8.mp4" :=
  video_keys_differ demoCfg demoCfg (demoWorld 42 false false) demoWorldOnes
    (demoRequest "video/mp4") (demoRequest "video/mp4")
    "tubely-bucket" "AAECAwQFBgcICQoLDA0ODxAREhMUFRYXGBkaGxwdHh8.mp4"
    "/tmp/tubely-upload.mp42731458" "video/mp4"
    "tubely-bucket" "__________________________________________8.mp4"
    "/tmp/tubely-upload.mp42731458" "video/mp4"
    (by decide) (by decide) (by decide) (by decide) (by decide) (by decide) (by decide)

/-- C8, the code at the failing input: `UpdateVideo` fails in the demo world. The video
handler has made the call, writes no response at all, and the client receives status 200.
The thumbnail handler writes the error 500 and then still writes the updated record. -/
theorem update_failure_not_reported :
    (demoWorld 42 false true).updateVideoErr (demoVideoUpdate "mp4") = true ∧
    handlerUploadVideo demoCfg (demoWorld 42 false true) (demoRequest "video/mp4") =
      { writes := [], effects := demoVideoEffects "video/mp4" "mp4",
        fetched := some demoVideo } ∧
    statusSent
      (handlerUploadVideo demoCfg (demoWorld 42 false true) (demoRequest "video/mp4")).writes
      = 200 ∧
    (handlerUploadThumbnail demoCfg (demoWorld 42 false true)
      (demoRequest "image/png")).writes =
      [Response.error 500 "Couldn't update video, although videoID had been found",
        Response.json 200 demoThumbnailUpdate] := by
  decide

/-- C9, the code at the failing input: `io.Copy` fails in the demo world. The thumbnail
handler writes the error 500, does not return, calls `UpdateVideo` with the new thumbnail
reference and writes the updated record. The video handler discards the result of
`io.Copy` and goes on to `PutObject` and `UpdateVideo`. -/
theorem copy_failure_still_updates :
    handlerUploadThumbnail demoCfg (demoWorld 42 true false) (demoRequest "image/png") =
      { writes := [
          Response.error 500 "Couldn't write content to new asset file at assets/<new_asset>",
          Response.json 200 demoThumbnailUpdate]
        effects := [
          Effect.createFile "assets/3f2a0cbb-8a0e-4a9e-9d6c-2b1f0e6d7c55.png",
          Effect.copyToFile "assets/3f2a0cbb-8a0e-4a9e-9d6c-2b1f0e6d7c55.png" [1, 2, 3],
          Effect.updateVideo demoThumbnailUpdate]
        fetched := some demoVideo } ∧
    handlerUploadVideo demoCfg (demoWorld 42 true false) (demoRequest "video/mp4") =
      { writes := [], effects := demoVideoEffects "video/mp4" "mp4",
        fetched := some demoVideo } := by
  decide

/-- C10, the code at the failing input: with `os.TempDir()` equal to `/tmp` the staging
file is created as `/tmp/tubely-upload.mp42731458`, the only path removed is
`/tmp/tmp/tubely-upload.mp42731458`, and the staging file still exists after the run. -/
theorem staging_file_not_removed :
    Effect.createTemp "/tmp/tubely-upload.mp42731458" ∈
      (handlerUploadVideo demoCfg (demoWorld 42 false false)
        (demoRequest "video/mp4")).effects ∧
    (∀ p, Effect.remove p ∈
      (handlerUploadVideo demoCfg (demoWorld 42 false false)
        (demoRequest "video/mp4")).effects → p = "/tmp/tmp/tubely-upload.mp42731458") ∧
    "/tmp/tubely-upload.mp42731458" ∈ filesAfter []
      (handlerUploadVideo demoCfg (demoWorld 42 false false)
        (demoRequest "video/mp4")).effects := by
  have h : handlerUploadVideo demoCfg (demoWorld 42 false false) (demoRequest "video/mp4") =
      { writes := [], effects := demoVideoEffects "video/mp4" "mp4",
        fetched := some demoVideo } := by decide
  rw [h]
  refine ⟨by decide, ?_, by decide⟩
  intro p hp
  simp [demoVideoEffects, demoRemoved] at hp
  exact hp

end Tubely
